import Mathlib

/-!
Verification development for the Parith repository: a Tauri GUI frontend
(src/src/main.ts) over a backend command "run" that interprets programs of
the small functional language Arith (lexer, recursive-descent parsing,
environment-based evaluation), as described by the specification.

The repository sources contain the TypeScript UI wiring and the README; the
interpreter core itself (the Rust backend behind the "run" command) is not
among the provided source files, so the lexer, parsing stage, evaluator and
run facade below are modelled from the specification text and every claim
about them is settled against that model.  Numbers are modelled with exact
rationals: the claims exercise only small integer values, on which IEEE-754
double arithmetic is exact and agrees with rational arithmetic.
-/

namespace Parith

/-- Modelled from the spec: `LexError\x7bposition, character\x7d` for the
lexer of the Arith core, which is not among the provided source files. -/
structure LexError where
  position : Nat
  character : Char
deriving DecidableEq, Repr

/-- Modelled from the spec: the Token data model of the missing Arith core.
Number carries the literal numeric text; Keyword is only ever `func`;
Symbol is one of the eight recognized symbol texts; EndOfInput terminates
every successful token sequence. -/
inductive Token where
  | number (text : String)
  | identifier (name : String)
  | keyword (text : String)
  | symbol (text : String)
  | endOfInput
deriving DecidableEq, Repr

/-- The seven single-character symbols of the lexical grammar. -/
def isSingleSymbol (c : Char) : Bool :=
  c = '(' || c = ')' || c = ',' || c = '+' || c = '-' || c = '*' || c = '/'

/-- Modelled from the spec: the scanning loop of `tokenize` of the missing
Arith core.  Left-to-right single pass over the remaining characters at the
given position: whitespace skipped; a maximal digit run, optionally with one
dot, forms a Number token; a maximal letter run forms an Identifier except
the exact text `func`, which is the Keyword; `=>` is a single Symbol token,
matched before single `=`, which is otherwise illegal; each of the seven
single characters is its own Symbol; any other character fails with a
LexError carrying the position and the character.  The fuel argument makes
the recursion structural; every step consumes at least one character, so
fuel exceeding the input length is never exhausted. -/
def tokenizeGo : Nat → List Char → Nat → Except LexError (List Token)
  | _, [], _ => Except.ok [Token.endOfInput]
  | 0, c :: _, pos => Except.error ⟨pos, c⟩
  | fuel + 1, c :: rest, pos =>
    if c.isWhitespace then
      tokenizeGo fuel rest (pos + 1)
    else if c.isDigit then
      match rest.span Char.isDigit with
      | (ds, '.' :: rest2) =>
        match rest2.span Char.isDigit with
        | (fs, rest3) => do
          let ts ← tokenizeGo fuel rest3 (pos + ds.length + fs.length + 2)
          Except.ok (Token.number (String.mk (c :: ds ++ '.' :: fs)) :: ts)
      | (ds, rest1) => do
        let ts ← tokenizeGo fuel rest1 (pos + ds.length + 1)
        Except.ok (Token.number (String.mk (c :: ds)) :: ts)
    else if c.isAlpha then
      match rest.span Char.isAlpha with
      | (ls, rest1) => do
        let name := String.mk (c :: ls)
        let ts ← tokenizeGo fuel rest1 (pos + ls.length + 1)
        Except.ok ((if name = "func" then Token.keyword name
                    else Token.identifier name) :: ts)
    else if c = '=' then
      match rest with
      | '>' :: rest2 => do
        let ts ← tokenizeGo fuel rest2 (pos + 2)
        Except.ok (Token.symbol "=>" :: ts)
      | _ => Except.error ⟨pos, '='⟩
    else if isSingleSymbol c then do
      let ts ← tokenizeGo fuel rest (pos + 1)
      Except.ok (Token.symbol (String.mk [c]) :: ts)
    else
      Except.error ⟨pos, c⟩

/-- Modelled from the spec: `tokenize(source) -> sequence of Token, fails
with LexError` of the missing Arith core. -/
def tokenize (source : String) : Except LexError (List Token) :=
  tokenizeGo (source.length + 1) source.toList 0

/-- Modelled from the spec: the four arithmetic operators of BinaryOp. -/
inductive BinOp where
  | add
  | sub
  | mul
  | div
deriving DecidableEq, Repr

/-- Modelled from the spec: the numeric value model of the missing Arith
core.  The spec stores a float64; the model stores an exact fraction
(numerator over positive denominator), on which every arithmetic result a
claim exercises is exactly the IEEE-754 double result. -/
structure Number where
  num : Int
  den : Nat
deriving DecidableEq, Repr

/-- Fraction addition, denominators multiplied, no normalization. -/
def numberAdd (a b : Number) : Number :=
  ⟨a.num * b.den + b.num * a.den, a.den * b.den⟩

/-- Fraction subtraction. -/
def numberSub (a b : Number) : Number :=
  ⟨a.num * b.den - b.num * a.den, a.den * b.den⟩

/-- Fraction multiplication. -/
def numberMul (a b : Number) : Number :=
  ⟨a.num * b.num, a.den * b.den⟩

/-- Fraction division by a nonzero fraction: the sign of the divisor
moves to the numerator so the denominator stays positive. -/
def numberDiv (a b : Number) : Number :=
  ⟨a.num * b.den * b.num.sign, a.den * b.num.natAbs⟩

/-- Whether a numeric value is exactly zero. -/
def numberIsZero (a : Number) : Bool :=
  a.num = 0

/-- Modelled from the spec: the Expression AST of the missing Arith core. -/
inductive Expr where
  | numberLiteral (value : Number)
  | var (name : String)
  | binaryOp (op : BinOp) (left : Expr) (right : Expr)
  | functionLiteral (parameter : String) (body : Expr)
  | apply (callee : Expr) (argument : Expr)
deriving DecidableEq, Repr

/-- Modelled from the spec: `ParseError\x7bexpected, found, position\x7d`;
position is the index of the offending token in the token sequence. -/
structure ParseError where
  expected : String
  found : String
  position : Nat
deriving DecidableEq, Repr

/-- Rendering of a token for expected-vs-found diagnostics. -/
def describeToken : Token → String
  | Token.number t => "Number " ++ t
  | Token.identifier n => "Identifier " ++ n
  | Token.keyword k => "Keyword " ++ k
  | Token.symbol s => "Symbol " ++ s
  | Token.endOfInput => "EndOfInput"

/-- The numeric value of the digit list of a Number token. -/
def digitsToNat (ds : List Char) : Nat :=
  ds.foldl (fun n c => 10 * n + (c.toNat - '0'.toNat)) 0

/-- The numeric value of the literal numeric text of a Number token:
decimal digits, optionally followed by one dot and more digits. -/
def numberTextValue (t : String) : Number :=
  match t.toList.span (fun c => c ≠ '.') with
  | (intPart, []) => ⟨digitsToNat intPart, 1⟩
  | (intPart, _ :: fracPart) =>
      ⟨digitsToNat intPart * 10 ^ fracPart.length + digitsToNat fracPart,
        10 ^ fracPart.length⟩

/-- The binary operator selected by a leading arithmetic Symbol token. -/
def binOpOfSymbol (s : String) : Option BinOp :=
  if s = "+" then some BinOp.add
  else if s = "-" then some BinOp.sub
  else if s = "*" then some BinOp.mul
  else if s = "/" then some BinOp.div
  else none

/-- Modelled from the spec: the `expression` non-terminal of the missing
recursive-descent Arith core, LL(1) dispatch on the next token: a Number
selects a numeric leaf; the `func` keyword selects funcLit; the identifier
`apply` selects apply; any other identifier selects a variable leaf; a
leading arithmetic symbol selects binaryOp.  Both binaryOp and apply then
require the shape `( expression , expression )`.  Returns the parsed
expression together with the unconsumed tokens and the next token index.
The fuel makes the descent structural; each recursive call consumes at
least one token first, so fuel exceeding the token count never runs out. -/
def parseExpr : Nat → List Token → Nat → Except ParseError (Expr × List Token × Nat)
  | 0, _, pos => Except.error ⟨"expression", "recursion limit", pos⟩
  | fuel + 1, ts, pos =>
    match ts with
    | Token.number t :: rest =>
        Except.ok (Expr.numberLiteral (numberTextValue t), rest, pos + 1)
    | Token.keyword _ :: rest =>
        match rest with
        | Token.identifier p :: Token.symbol "=>" :: rest2 => do
            let (body, rest3, pos3) ← parseExpr fuel rest2 (pos + 3)
            Except.ok (Expr.functionLiteral p body, rest3, pos3)
        | Token.identifier _ :: t :: _ =>
            Except.error ⟨"Symbol =>", describeToken t, pos + 2⟩
        | t :: _ => Except.error ⟨"Identifier", describeToken t, pos + 1⟩
        | [] => Except.error ⟨"Identifier", "end of tokens", pos + 1⟩
    | Token.identifier name :: rest =>
        if name = "apply" then
          match rest with
          | Token.symbol "(" :: rest2 => do
              let (callee, rest3, pos3) ← parseExpr fuel rest2 (pos + 2)
              match rest3 with
              | Token.symbol "," :: rest4 => do
                  let (arg, rest5, pos5) ← parseExpr fuel rest4 (pos3 + 1)
                  match rest5 with
                  | Token.symbol ")" :: rest6 =>
                      Except.ok (Expr.apply callee arg, rest6, pos5 + 1)
                  | t :: _ => Except.error ⟨"Symbol )", describeToken t, pos5⟩
                  | [] => Except.error ⟨"Symbol )", "end of tokens", pos5⟩
              | t :: _ => Except.error ⟨"Symbol ,", describeToken t, pos3⟩
              | [] => Except.error ⟨"Symbol ,", "end of tokens", pos3⟩
          | t :: _ => Except.error ⟨"Symbol (", describeToken t, pos + 1⟩
          | [] => Except.error ⟨"Symbol (", "end of tokens", pos + 1⟩
        else
          Except.ok (Expr.var name, rest, pos + 1)
    | Token.symbol s :: rest =>
        match binOpOfSymbol s with
        | some op =>
          match rest with
          | Token.symbol "(" :: rest2 => do
              let (l, rest3, pos3) ← parseExpr fuel rest2 (pos + 2)
              match rest3 with
              | Token.symbol "," :: rest4 => do
                  let (r, rest5, pos5) ← parseExpr fuel rest4 (pos3 + 1)
                  match rest5 with
                  | Token.symbol ")" :: rest6 =>
                      Except.ok (Expr.binaryOp op l r, rest6, pos5 + 1)
                  | t :: _ => Except.error ⟨"Symbol )", describeToken t, pos5⟩
                  | [] => Except.error ⟨"Symbol )", "end of tokens", pos5⟩
              | t :: _ => Except.error ⟨"Symbol ,", describeToken t, pos3⟩
              | [] => Except.error ⟨"Symbol ,", "end of tokens", pos3⟩
          | t :: _ => Except.error ⟨"Symbol (", describeToken t, pos + 1⟩
          | [] => Except.error ⟨"Symbol (", "end of tokens", pos + 1⟩
        | none => Except.error ⟨"expression", "Symbol " ++ s, pos⟩
    | Token.endOfInput :: _ => Except.error ⟨"expression", "EndOfInput", pos⟩
    | [] => Except.error ⟨"expression", "end of tokens", pos⟩

/-- Modelled from the spec: the `program := expression EndOfInput`
production of the missing Arith core.  Trailing tokens remaining after a
complete expression are an error, not silently ignored. -/
def parseProgram (ts : List Token) : Except ParseError Expr := do
  let (e, rest, pos) ← parseExpr (ts.length + 1) ts 0
  match rest with
  | [Token.endOfInput] => Except.ok e
  | t :: _ => Except.error ⟨"EndOfInput", describeToken t, pos⟩
  | [] => Except.error ⟨"EndOfInput", "end of tokens", pos⟩

/-- Modelled from the spec: the RuntimeError taxonomy of the missing Arith
core evaluator. -/
inductive RuntimeError where
  | unboundName (name : String)
  | typeMismatch (op : String) (side : String)
  | divisionByZero
  | notCallable
  | stackOverflow
deriving DecidableEq, Repr

/-- Modelled from the spec: the Value result model of the missing Arith
core — Number or Closure.  A Closure holds its parameter, body and the
captured Environment, modelled as the chain of single-binding frames with
the innermost frame first. -/
inductive Value where
  | number (value : Number)
  | closure (parameter : String) (body : Expr) (captured : List (String × Value))

/-- Environment lookup walks the frame chain outward, innermost first. -/
def lookupEnv : List (String × Value) → String → Option Value
  | [], _ => none
  | (n, v) :: outer, name => if n = name then some v else lookupEnv outer name

/-- The rendering of an operator inside a TypeMismatch diagnostic. -/
def opName : BinOp → String
  | BinOp.add => "+"
  | BinOp.sub => "-"
  | BinOp.mul => "*"
  | BinOp.div => "/"

/-- Modelled from the spec: `evaluate(expression, environment) -> Value,
fails with RuntimeError` of the missing Arith core.  Structural recursion
on the fuel, which models the finite call stack: exhausting it is the
StackOverflow condition of unbounded recursive Arith programs.  A
NumberLiteral is its Number; a Variable is looked up, failing with
UnboundName; a BinaryOp forces left then right, requires both to be
numbers, and fails with DivisionByZero before dividing by exactly zero; a
FunctionLiteral closes over the current environment unchanged; an Apply
forces the callee, requires a Closure (else NotCallable), forces the
argument in the environment of the caller, and evaluates the body in one new
frame binding the parameter over the captured environment. -/
def evaluate : Nat → Expr → List (String × Value) → Except RuntimeError Value
  | 0, _, _ => Except.error RuntimeError.stackOverflow
  | fuel + 1, e, env =>
    match e with
    | Expr.numberLiteral v => Except.ok (Value.number v)
    | Expr.var name =>
        match lookupEnv env name with
        | some v => Except.ok v
        | none => Except.error (RuntimeError.unboundName name)
    | Expr.binaryOp op l r => do
        let lv ← evaluate fuel l env
        let rv ← evaluate fuel r env
        match lv, rv with
        | Value.number a, Value.number b =>
            match op with
            | BinOp.add => Except.ok (Value.number (numberAdd a b))
            | BinOp.sub => Except.ok (Value.number (numberSub a b))
            | BinOp.mul => Except.ok (Value.number (numberMul a b))
            | BinOp.div =>
                if numberIsZero b then Except.error RuntimeError.divisionByZero
                else Except.ok (Value.number (numberDiv a b))
        | Value.number _, _ =>
            Except.error (RuntimeError.typeMismatch (opName op) "right")
        | _, _ => Except.error (RuntimeError.typeMismatch (opName op) "left")
    | Expr.functionLiteral p b => Except.ok (Value.closure p b env)
    | Expr.apply callee arg => do
        let cv ← evaluate fuel callee env
        match cv with
        | Value.closure p body captured => do
            let av ← evaluate fuel arg env
            evaluate fuel body ((p, av) :: captured)
        | _ => Except.error RuntimeError.notCallable

/-- Modelled from the spec: the call-stack budget of the evaluator.  The
spec fixes no numeric bound, only that exhaustion is reported as
StackOverflow; any bound large enough for the claim programs serves. -/
def stackLimit : Nat := 1000

/-- The union of the three stage errors that the run facade renders. -/
inductive RunError where
  | lexStage (e : LexError)
  | parseStage (e : ParseError)
  | runtimeStage (e : RuntimeError)
deriving DecidableEq, Repr

/-- The typed pipeline: tokenize, then parse, then evaluate in the empty
top-level environment, first failure short-circuiting. -/
def interpret (source : String) : Except RunError Value := do
  let ts ← (tokenize source).mapError RunError.lexStage
  let e ← (parseProgram ts).mapError RunError.parseStage
  (evaluate stackLimit e []).mapError RunError.runtimeStage

/-- Euclidean algorithm with explicit fuel, so every step is structural:
one step takes the pair x, y with x positive to y mod x, x, and the fuel
exceeds the first argument, which strictly decreases, so the fuel is never
exhausted when it starts above x. -/
def gcdGo : Nat → Nat → Nat → Nat
  | 0, _, y => y
  | _ + 1, 0, y => y
  | fuel + 1, x + 1, y => gcdGo fuel (y % (x + 1)) (x + 1)

/-- Greatest common divisor via the fuelled Euclidean algorithm. -/
def natGcd (x y : Nat) : Nat :=
  gcdGo (x + 1) x y

/-- Canonical decimal text of a Number result after reducing the
fraction; integers render with no point, exactly as in the README example
where 2 squared renders as 4. -/
def formatNumber (q : Number) : String :=
  let g := natGcd q.num.natAbs q.den
  let n := q.num / (g : Int)
  let d := q.den / g
  if d = 1 then toString n
  else toString n ++ "/" ++ toString d

/-- Success rendering: a Number as its canonical decimal text, a Closure
as the fixed placeholder of the spec. -/
def formatValue : Value → String
  | Value.number q => formatNumber q
  | Value.closure _ _ _ => "<function>"

/-- The runtime part of the uniform diagnostic rendering. -/
def describeRuntimeError : RuntimeError → String
  | RuntimeError.unboundName n => "unbound name " ++ n
  | RuntimeError.typeMismatch op side =>
      "type mismatch: " ++ op ++ " expects a number on the " ++ side
  | RuntimeError.divisionByZero => "division by zero"
  | RuntimeError.notCallable => "not callable: value is not a function"
  | RuntimeError.stackOverflow => "stack overflow"

/-- The single translation point from typed stage error to the diagnostic
string handed to the caller, identifying stage, position and cause. -/
def formatError : RunError → String
  | RunError.lexStage e =>
      "Lex error: unrecognized character " ++ String.mk [e.character] ++
        " at position " ++ toString e.position
  | RunError.parseStage e =>
      "Parse error: expected " ++ e.expected ++ ", found " ++ e.found ++
        " at token " ++ toString e.position
  | RunError.runtimeStage e => "Runtime error: " ++ describeRuntimeError e

/-- Modelled from the spec: the run facade `run(source: string) -> string`
of the missing Arith core — success and failure are both returned as a
plain string. -/
def run (source : String) : String :=
  match interpret source with
  | Except.ok v => formatValue v
  | Except.error e => formatError e

/-- A sequence of independent backend invocations: the model of several
form submissions in a row, each handed to `run` with no other state. -/
def runSession (sources : List String) : List String :=
  sources.map run

namespace UI

/-- The DOM state seen by src/src/main.ts: the lookup results of the two
querySelector calls made at DOMContentLoaded, each either absent (null) or
present with its text.  For the input element the string is its current
value; for the output element, its textContent. -/
structure Dom where
  inputElement : Option String
  outputElement : Option String
deriving DecidableEq, Repr

/-- One call to the Tauri `invoke` bridge as issued by main.ts: the
command name and the single named argument it passes. -/
structure InvokeCall where
  cmd : String
  argName : String
  argValue : String
deriving DecidableEq, Repr

/-- Embedding of `async function run()` in src/src/main.ts: when both
elements are non-null it invokes the backend command named run with the
input value under the argument name input and writes the awaited result to
the output textContent; otherwise it does nothing.  Returns the list of
backend calls issued together with the resulting DOM state. -/
def run (backend : String → String) (dom : Dom) : List InvokeCall × Dom :=
  match dom.inputElement, dom.outputElement with
  | some v, some _ =>
      ([⟨"run", "input", v⟩], { dom with outputElement := some (backend v) })
  | _, _ => ([], dom)

/-- The observable outcome of one form submission. -/
structure SubmitResult where
  defaultPrevented : Bool
  calls : List InvokeCall
  dom : Dom
deriving DecidableEq, Repr

/-- Embedding of the submit listener in src/src/main.ts: preventDefault on
the event, then one call to the UI run function. -/
def onSubmit (backend : String → String) (dom : Dom) : SubmitResult :=
  ⟨true, (run backend dom).1, (run backend dom).2⟩

end UI

end Parith

namespace Parith

/-- Unfolding of the scanning step on an `=` followed by `>`: both
characters are consumed and the single arrow Symbol is placed before the
continuation of the scan. -/
theorem tokenizeGo_arrow_step (fuel : Nat) (rest : List Char) (pos : Nat) :
    tokenizeGo (fuel + 1) ('=' :: '>' :: rest) pos =
      Except.bind (tokenizeGo fuel rest (pos + 2))
        (fun ts => Except.ok (Token.symbol "=>" :: ts)) := by
  rfl

/-- C1: the canonical README example: running
`apply(func x => *(x, x), 2)` applies the single-parameter squaring
function to 2, the pipeline evaluates it to the number 4, and run renders
it as the canonical decimal text `4`. -/
theorem run_canonical_example_squares_two :
    run "apply(func x => *(x, x), 2)" = "4" ∧
    interpret "apply(func x => *(x, x), 2)" = Except.ok (Value.number ⟨4, 1⟩) := by
  exact ⟨by rfl, by rfl⟩

/-- C2: for every input string, run returns a string through its single
return channel: on pipeline success it is the value rendering (decimal
text of a Number, fixed placeholder for a Closure), on any lex, parse or
runtime failure it is the diagnostic rendering of that stage error; no
error is propagated separately. -/
theorem run_always_returns_string (s : String) :
    (∃ v, interpret s = Except.ok v ∧ run s = formatValue v) ∨
    (∃ e, interpret s = Except.error e ∧ run s = formatError e) := by
  cases h : interpret s with
  | ok v => exact Or.inl ⟨v, rfl, by simp [run, h]⟩
  | error e => exact Or.inr ⟨e, rfl, by simp [run, h]⟩

/-- C3: dividing by exactly zero is a checked failure: `/(1, 0)` reaches
the evaluator and fails with DivisionByZero, run returns the
division-by-zero diagnostic string, and in particular neither an Infinity
nor a NaN rendering. -/
theorem run_division_by_zero_diagnostic :
    interpret "/(1, 0)" =
      Except.error (RunError.runtimeStage RuntimeError.divisionByZero) ∧
    run "/(1, 0)" = "Runtime error: division by zero" ∧
    run "/(1, 0)" ≠ "Infinity" ∧ run "/(1, 0)" ≠ "NaN" := by
  refine ⟨rfl, rfl, by decide, by decide⟩

/-- C4: closures capture lexically: evaluating any FunctionLiteral, with
any fuel remaining, yields a Closure holding exactly the environment in
effect at that point, and the nested example
`apply(func x => apply(func y => +(x, y), 10), 5)` evaluates to 15, the
inner function resolving x from its defining scope. -/
theorem closures_capture_lexically :
    (∀ (fuel : Nat) (p : String) (b : Expr) (env : List (String × Value)),
        evaluate (fuel + 1) (Expr.functionLiteral p b) env =
          Except.ok (Value.closure p b env)) ∧
    run "apply(func x => apply(func y => +(x, y), 10), 5)" = "15" := by
  exact ⟨fun _ _ _ _ => rfl, by rfl⟩

/-- C5: trailing tokens after a complete expression are a parse error:
`3 4` fails with an expected-EndOfInput diagnostic at the second token and
run does not silently return `3`. -/
theorem trailing_garbage_rejected :
    interpret "3 4" =
      Except.error (RunError.parseStage ⟨"EndOfInput", "Number 4", 1⟩) ∧
    run "3 4" = "Parse error: expected EndOfInput, found Number 4 at token 1" ∧
    run "3 4" ≠ "3" := by
  refine ⟨rfl, rfl, by decide⟩

/-- C6: applying a non-function is a runtime failure: in `apply(2, 3)` the
callee evaluates to the Number 2, not a Closure, so evaluation fails with
NotCallable and run returns the not-callable diagnostic. -/
theorem apply_non_function_not_callable :
    interpret "apply(2, 3)" =
      Except.error (RunError.runtimeStage RuntimeError.notCallable) ∧
    run "apply(2, 3)" = "Runtime error: not callable: value is not a function" :=
  ⟨rfl, rfl⟩

/-- C7: run is deterministic and carries no state between invocations: in
any session of submissions, two occurrences of the same source string,
however separated by other submissions, produce the identical output
`run s` both times. -/
theorem run_deterministic_across_session (pre mid post : List String) (s : String) :
    runSession (pre ++ s :: mid ++ s :: post) =
      runSession pre ++ run s :: runSession mid ++ run s :: runSession post := by
  simp [runSession]

/-- C8: the lexer makes `=>` one Symbol token (tokenizing the two-character
input `=>` yields exactly that Symbol then EndOfInput, and at any scan
state an `=` followed by `>` consumes both and emits the single Symbol),
while a lone `=` at end of input, an `=` followed by anything but `>`, and
any character outside the recognized set each fail with a LexError carrying
the current position and the offending character. -/
theorem lexer_arrow_and_illegal_characters :
    tokenize "=>" = Except.ok [Token.symbol "=>", Token.endOfInput] ∧
    (∀ (fuel : Nat) (rest : List Char) (pos : Nat),
        tokenizeGo (fuel + 1) ('=' :: '>' :: rest) pos =
          (tokenizeGo fuel rest (pos + 2)).map (fun ts => Token.symbol "=>" :: ts)) ∧
    (∀ (fuel : Nat) (pos : Nat),
        tokenizeGo (fuel + 1) ['='] pos = Except.error ⟨pos, '='⟩) ∧
    (∀ (fuel : Nat) (c : Char) (rest : List Char) (pos : Nat), c ≠ '>' →
        tokenizeGo (fuel + 1) ('=' :: c :: rest) pos = Except.error ⟨pos, '='⟩) ∧
    (∀ (fuel : Nat) (c : Char) (rest : List Char) (pos : Nat),
        c.isWhitespace = false → c.isDigit = false → c.isAlpha = false →
        c ≠ '=' → isSingleSymbol c = false →
        tokenizeGo (fuel + 1) (c :: rest) pos = Except.error ⟨pos, c⟩) := by
  refine ⟨by rfl, ?_, ?_, ?_, ?_⟩
  · intro fuel rest pos
    rw [tokenizeGo_arrow_step]
    cases tokenizeGo fuel rest (pos + 2) <;> rfl
  · intro fuel pos
    rfl
  · intro fuel c rest pos hc
    simp [tokenizeGo, hc]
  · intro fuel c rest pos h1 h2 h3 h4 h5
    simp [tokenizeGo, h1, h2, h3, h4, h5]

/-- Witness for C8: the hypothesis-bearing parts at concrete inputs: an
`=` followed by `a` fails at position 0 with character `=`, and the
unrecognized character `#` fails at position 0 with character `#`. -/
theorem lexer_arrow_and_illegal_characters_witness :
    tokenizeGo 1 ['=', 'a'] 0 = Except.error ⟨0, '='⟩ ∧
    tokenizeGo 1 ['#'] 0 = Except.error ⟨0, '#'⟩ :=
  ⟨lexer_arrow_and_illegal_characters.2.2.2.1 0 'a' [] 0 (by decide),
   lexer_arrow_and_illegal_characters.2.2.2.2 0 '#' [] 0 (by decide)
     (by decide) (by decide) (by decide) (by decide)⟩

/-- Counterexample to C9 as stated: a form submission while the input
element lookup returned null issues zero backend invocations, not exactly
one — the claim fails on the guard in the run function of main.ts. -/
theorem submission_without_elements_invokes_nothing :
    ¬ ((UI.onSubmit (fun s => s) ⟨none, some ""⟩).calls.length = 1) := by
  decide

/-- C9 amended: a form submission with both elements present issues
exactly one backend invocation, of the command named run, passing the
input value under the single argument name input, and writes the result
to the output; a submission with either element absent issues none.  The
outcome is a function of the backend and the DOM state alone — no session
state. -/
theorem submission_invokes_run_once_when_elements_present
    (backend : String → String) (v o : String) :
    UI.onSubmit backend ⟨some v, some o⟩ =
      ⟨true, [⟨"run", "input", v⟩], ⟨some v, some (backend v)⟩⟩ ∧
    (∀ dom : UI.Dom, dom.inputElement = none ∨ dom.outputElement = none →
        UI.onSubmit backend dom = ⟨true, [], dom⟩) := by
  constructor
  · rfl
  · rintro ⟨i, o'⟩ h
    cases i <;> cases o' <;> first | rfl | (rcases h with h | h <;> simp at h)

/-- Witness for C9: the amended theorem at the identity backend, input
value `a`, old output `b`, and at the DOM state with an absent input
element. -/
theorem submission_invokes_run_once_witness :
    UI.onSubmit (fun s => s) ⟨some "a", some "b"⟩ =
      ⟨true, [⟨"run", "input", "a"⟩], ⟨some "a", some "a"⟩⟩ ∧
    UI.onSubmit (fun s => s) ⟨none, some "b"⟩ = ⟨true, [], ⟨none, some "b"⟩⟩ :=
  ⟨(submission_invokes_run_once_when_elements_present (fun s => s) "a" "b").1,
   (submission_invokes_run_once_when_elements_present (fun s => s) "a" "b").2
     ⟨none, some "b"⟩ (Or.inl rfl)⟩

/-- C10: if either element lookup returned null, the UI run function
issues no backend invocation and leaves the DOM state, in particular the
output, unchanged — it is a total function returning without effect. -/
theorem ui_run_absent_element_no_effect (backend : String → String)
    (dom : UI.Dom)
    (h : dom.inputElement = none ∨ dom.outputElement = none) :
    UI.run backend dom = ([], dom) := by
  obtain ⟨i, o⟩ := dom
  cases i <;> cases o <;> first | rfl | (rcases h with h | h <;> simp at h)

/-- Witness for C10: the theorem at the identity backend and the DOM state
where the output element is absent. -/
theorem ui_run_absent_element_no_effect_witness :
    UI.run (fun s => s) ⟨some "a", none⟩ = ([], ⟨some "a", none⟩) :=
  ui_run_absent_element_no_effect (fun s => s) ⟨some "a", none⟩ (Or.inr rfl)

end Parith
